import Mathlib

/-
Verification of the twine-rng randomness beacon payload logic, a shallow
embedding of src/payload.rs, src/timing.rs, src/validations.rs and
src/lib.rs.

Modelling conventions:
- bytes are `List Nat`, XOR is `Nat.xor` on the byte values;
- timestamps and durations (chrono `DateTime<Utc>` / `TimeDelta`) are
  mathematical integers counting nanoseconds since the Unix epoch (chrono
  keeps nanosecond precision);
- the wall clock `Utc::now()` is passed explicitly as a `now` argument;
- a Rust panic (the `unwrap` in `next_truncated_time`, and the division
  by a zero span inside chrono) is modelled as `Option.none`, so every
  function that can reach the panic returns an `Option`;
- the digest computation of the external multihash library is an abstract
  parameter of type `HashFn`; the structure of a multihash (code tag and
  digest bytes) is concrete;
- the external twine chain library (strands, tixels, payload decoding) is
  modelled by the narrow read-only interface this crate consumes, as
  described by the specification.
-/

namespace TwineRng

deriving instance DecidableEq for Except

/-- Modelled from the spec: a multihash value of the external library, an
algorithm-tagged digest. `size` is the digest length in bytes. -/
structure Multihash where
  code : Nat
  digest : List Nat
  deriving DecidableEq

def Multihash.size (m : Multihash) : Nat := m.digest.length

/-- Modelled from the spec: the hash-algorithm codes of the external
multihash code table used by this crate, with their numeric tags. -/
inductive Code where
  | sha2_256
  | sha2_512
  | sha3_512
  | sha3_384
  | sha3_256
  | sha3_224
  deriving DecidableEq

def Code.toNat : Code → Nat
  | .sha2_256 => 0x12
  | .sha2_512 => 0x13
  | .sha3_512 => 0x14
  | .sha3_384 => 0x15
  | .sha3_256 => 0x16
  | .sha3_224 => 0x17

/-- Modelled from the spec: multihash `Code::try_from` on a numeric tag. -/
def Code.try_from (n : Nat) : Option Code :=
  if n = 0x12 then some .sha2_256
  else if n = 0x13 then some .sha2_512
  else if n = 0x14 then some .sha3_512
  else if n = 0x15 then some .sha3_384
  else if n = 0x16 then some .sha3_256
  else if n = 0x17 then some .sha3_224
  else none

/-- The digest computation of the external hash library, kept abstract: one
digest function per code. -/
def HashFn : Type := Code → List Nat → List Nat

/-- Modelled from the spec: `Code::digest` hashes the data and wraps the
digest bytes with the numeric tag of the code. -/
def Code.digest (hashFn : HashFn) (c : Code) (data : List Nat) : Multihash :=
  Multihash.mk c.toNat (hashFn c data)

/-- The `VerificationError` variants of the external library used by this
crate. -/
inductive VerificationError where
  | payload (msg : String)
  | general (msg : String)
  | unsupportedHashAlgorithm
  deriving DecidableEq

/-- The `BuildError` variants used by this crate; `badData` is the
`From<VerificationError>` conversion applied by the `?` operator. -/
inductive BuildError where
  | payloadConstruction (msg : String)
  | badData (e : VerificationError)
  deriving DecidableEq

/-- Whether a result is `Ok`. -/
def exOk {ε α : Type} : Except ε α → Bool
  | .ok _ => true
  | .error _ => false

/-- Whether a computation that may panic (`none`) returned `Ok`. -/
def obOk {ε α : Type} : Option (Except ε α) → Bool
  | some (.ok _) => true
  | _ => false

/-- The raw randomness payload record `RandomnessPayloadRaw` (payload.rs):
salt bytes, pre-commitment multihash, timestamp. -/
structure RandomnessPayloadRaw where
  salt : List Nat
  pre : Multihash
  timestamp : Int
  deriving DecidableEq

/-- chrono `timestamp_subsec_millis`: the whole milliseconds of the
sub-second component, i.e. the nanosecond remainder within the current
second divided by 1000000. -/
def timestamp_subsec_millis (ts : Int) : Int :=
  (Int.emod ts 1000000000) / 1000000

/-- `RandomnessPayloadRaw::verify` (payload.rs): the salt must be as long
as the digest of `pre`, and the timestamp must have no whole-millisecond
sub-second component. -/
def RandomnessPayloadRaw.verify (r : RandomnessPayloadRaw) :
    Except VerificationError Unit :=
  if r.salt.length ≠ r.pre.size then
    Except.error (VerificationError.payload "Salt length does not match pre hash size")
  else if timestamp_subsec_millis r.timestamp ≠ 0 then
    Except.error (VerificationError.payload "Timestamp has milliseconds")
  else Except.ok ()

/-- `RandomnessPayload` (payload.rs): a raw payload together with the
evidence that `verify` accepted it (the `Verified` wrapper). -/
structure RandomnessPayload where
  raw : RandomnessPayloadRaw
  verified : raw.verify = Except.ok ()

instance : DecidableEq RandomnessPayload := fun a b =>
  if h : a.raw = b.raw then
    Decidable.isTrue (by cases a; cases b; cases h; rfl)
  else
    Decidable.isFalse (fun hh => by cases hh; exact h rfl)

/-- `RandomnessPayload::try_new` (payload.rs), i.e.
`Verified::try_new(raw).map(Self)`: run `verify` and keep the record only
when it passes. -/
def RandomnessPayload.try_new (salt : List Nat) (pre : Multihash)
    (timestamp : Int) : Except VerificationError RandomnessPayload :=
  match h : (RandomnessPayloadRaw.mk salt pre timestamp).verify with
  | .ok () => Except.ok (RandomnessPayload.mk (RandomnessPayloadRaw.mk salt pre timestamp) h)
  | .error e => Except.error e

/-- Deserialization of a `RandomnessPayload` (payload.rs,
`#[serde(transparent)]` over `Verified<RandomnessPayloadRaw>`): decoding a
raw record succeeds exactly when `verify` accepts it. -/
def deserialize_payload (r : RandomnessPayloadRaw) :
    Except VerificationError RandomnessPayload :=
  RandomnessPayload.try_new r.salt r.pre r.timestamp

/-- Modelled from the spec: the signature algorithms of the external
library; the RSA variants carry their key material. -/
inductive SignatureAlgorithm where
  | sha256Rsa (keyBits : Nat)
  | sha384Rsa (keyBits : Nat)
  | sha512Rsa (keyBits : Nat)
  | ecdsaP256
  | ecdsaP384
  | ed25519
  deriving DecidableEq

/-- Modelled from the spec: a parsed schema identifier, a namespace part
before the slash and a semantic version (pre-release tags not used by
this crate are not modelled). -/
structure Subspec where
  prefixStr : String
  major : Nat
  minor : Nat
  patch : Nat
  deriving DecidableEq

/-- `SPEC_PREFIX` (lib.rs). -/
def SPEC_PREFIX_STR : String := "twine-rng"

/-- `validate_signing_algorithm` (validations.rs): only the three
SHA-2 RSA variants are accepted. -/
def validate_signing_algorithm (alg : SignatureAlgorithm) :
    Except BuildError Unit :=
  match alg with
  | .sha256Rsa _ => Except.ok ()
  | .sha384Rsa _ => Except.ok ()
  | .sha512Rsa _ => Except.ok ()
  | _ => Except.error (BuildError.payloadConstruction
      "Signature algorithm must be provably deterministic")

/-- `validate_subspec` (validations.rs): the namespace part must equal
`SPEC_PREFIX`. -/
def validate_subspec (s : Subspec) : Except BuildError Unit :=
  if s.prefixStr ≠ SPEC_PREFIX_STR then
    Except.error (BuildError.payloadConstruction
      ("Subspec prefix must be " ++ SPEC_PREFIX_STR))
  else Except.ok ()

/-- `subspec.satisfies(VersionReq::parse("1.0.*"))` (lib.rs): the version
matches exactly when major is 1 and minor is 0. -/
def subspec_satisfies_1_0 (s : Subspec) : Bool :=
  s.major == 1 && s.minor == 0

/-- Modelled from the spec: the chain header (strand) fields this crate
reads: its content hash, signing-key algorithm, schema identifier (none
when the strand declares no subspec), the decoded
`RngStrandDetails.period` (none when the details blob does not decode)
and the declared hash algorithm. -/
structure Strand where
  cid : Multihash
  keyAlg : SignatureAlgorithm
  subspec : Option Subspec
  details : Option Int
  hasher : Code
  deriving DecidableEq

/-- Modelled from the spec: one chain entry (tixel) as read by this crate:
its content hash, its decoded payload record (none when the payload blob
is not a randomness payload record) and its declared hash algorithm. -/
structure Tixel where
  cid : Multihash
  payload : Option RandomnessPayloadRaw
  hasher : Code
  deriving DecidableEq

/-- Modelled from the spec: a link to a previous entry, the strand cid and
the tixel cid. -/
structure Stitch where
  strand : Multihash
  tixel : Multihash
  deriving DecidableEq

/-- Modelled from the spec: a resolved entry together with its strand and
its previous-entry link. -/
structure Twine where
  tixel : Tixel
  strand : Strand
  previous : Option Stitch
  deriving DecidableEq

def Twine.cid (t : Twine) : Multihash := t.tixel.cid

def Twine.strand_cid (t : Twine) : Multihash := t.strand.cid

/-- `tixel.extract_payload::<RandomnessPayload>()`: decode the payload
blob to the raw record, then verify it. -/
def Tixel.extract_payload (t : Tixel) : Except VerificationError RandomnessPayload :=
  match t.payload with
  | none => Except.error (VerificationError.payload "Payload is not a randomness payload")
  | some r => deserialize_payload r

def Twine.extract_payload (t : Twine) : Except VerificationError RandomnessPayload :=
  t.tixel.extract_payload

/-- Modelled from the spec: comparing an entry against a previous-entry
link compares the strand cid and the tixel cid. -/
def Twine.eq_stitch (t : Twine) (s : Stitch) : Bool :=
  t.strand.cid == s.strand && t.tixel.cid == s.tixel

/-- Modelled from chrono: `DurationRound::duration_trunc` floors the
timestamp to a multiple of the span since the epoch; it fails (and the
caller of `next_truncated_time` unwraps) unless the span is positive and
both span and timestamp fit in signed 64-bit nanoseconds; a zero span
panics inside chrono, which is also `none` here. -/
def duration_trunc (now span : Int) : Option Int :=
  if 0 < span ∧ span < 2 ^ 63 ∧ -(2 ^ 63) ≤ now ∧ now < 2 ^ 63 then
    some (now - Int.emod now span)
  else none

/-- `next_truncated_time` (timing.rs) with the wall clock passed
explicitly; the `unwrap` panic is `none`. -/
def next_truncated_time (now period : Int) : Option Int :=
  match duration_trunc now period with
  | none => none
  | some t => some (t + period)

/-- `next_pulse_timestamp` (timing.rs) with the wall clock passed
explicitly. -/
def next_pulse_timestamp (now prev_time period : Int) : Option Int :=
  if now - prev_time < period then some (prev_time + period)
  else next_truncated_time now period

/-- `RandomnessPayload::new_next` (payload.rs); `none` is a panic inside
the timing code. -/
def RandomnessPayload.new_next (hashFn : HashFn) (now : Int) (rand : List Nat)
    (pre : Multihash) (prev : Tixel) (period : Int) :
    Option (Except BuildError RandomnessPayload) :=
  match prev.extract_payload with
  | .error e => some (Except.error (BuildError.badData e))
  | .ok prev_payload =>
    if Code.digest hashFn prev.hasher rand ≠ prev_payload.raw.pre then
      some (Except.error (BuildError.payloadConstruction
        "Precommitment does not match random bytes"))
    else if prev.cid.size ≠ pre.size then
      some (Except.error (BuildError.payloadConstruction
        "Pre hash size does not match previous tixel hash size"))
    else
      match next_pulse_timestamp now prev_payload.raw.timestamp period with
      | none => none
      | some ts =>
        some ((RandomnessPayload.try_new
          (List.zipWith (fun a b => a ^^^ b) rand prev.cid.digest) pre ts).mapError
            BuildError.badData)

/-- `RandomnessPayload::new_start` (payload.rs); `none` is the timing
panic. -/
def RandomnessPayload.new_start (now : Int) (pre : Multihash) (period : Int) :
    Option (Except VerificationError RandomnessPayload) :=
  match next_truncated_time now period with
  | none => none
  | some ts =>
    some (RandomnessPayload.try_new (List.replicate pre.size 0) pre ts)

/-- `RandomnessPayload::local_random_value` (payload.rs). -/
def RandomnessPayload.local_random_value (self : RandomnessPayload)
    (prev : Twine) : List Nat :=
  List.zipWith (fun a b => a ^^^ b) self.raw.salt prev.cid.digest

/-- `RandomnessPayload::validate_randomness` (payload.rs). -/
def RandomnessPayload.validate_randomness (hashFn : HashFn)
    (self : RandomnessPayload) (prev : Twine) : Except VerificationError Unit :=
  if prev.cid.size ≠ self.raw.pre.size then
    Except.error (VerificationError.payload
      "Pre hash size does not match previous tixel hash size")
  else
    match prev.extract_payload with
    | .error e => Except.error e
    | .ok prev_payload =>
      if self.raw.timestamp < prev_payload.raw.timestamp then
        Except.error (VerificationError.payload
          "Timestamp is less than previous tixel timestamp")
      else
        match prev.strand.details with
        | none => Except.error (VerificationError.payload "Invalid strand details")
        | some period =>
          if self.raw.timestamp - prev_payload.raw.timestamp ≠ period then
            Except.error (VerificationError.payload
              "Timestamps are not within one period of each other")
          else
            match Code.try_from prev_payload.raw.pre.code with
            | none => Except.error VerificationError.unsupportedHashAlgorithm
            | some code =>
              if Code.digest hashFn code (self.local_random_value prev)
                  ≠ prev_payload.raw.pre then
                Except.error (VerificationError.payload
                  "Previous tixel pre hash does not match hash of random value")
              else Except.ok ()

/-- `extract_randomness` (lib.rs). -/
def extract_randomness (hashFn : HashFn) (current prev : Twine) :
    Except VerificationError (List Nat) :=
  if current.strand_cid ≠ prev.strand_cid then
    Except.error (VerificationError.general
      "Current tixel and previous tixel are on different strands")
  else
    match current.previous with
    | none => Except.error (VerificationError.general
        "Current tixel has no previous link")
    | some p =>
      if prev.eq_stitch p = false then
        Except.error (VerificationError.general
          "Previous tixel does not match the previous link of the current tixel")
      else
        match current.extract_payload with
        | .error e => Except.error e
        | .ok payload =>
          match RandomnessPayload.validate_randomness hashFn payload prev with
          | .error e => Except.error e
          | .ok () => Except.ok current.cid.digest

/-- `PayloadBuilder` (lib.rs): the session state of the beacon operator. -/
structure PayloadBuilder where
  current : List Nat
  next : List Nat
  deriving DecidableEq

/-- `PayloadBuilder::pre` (lib.rs). -/
def PayloadBuilder.pre (hashFn : HashFn) (pb : PayloadBuilder) (code : Code) :
    Multihash :=
  Code.digest hashFn code pb.next

/-- `PayloadBuilder::advance` (lib.rs). -/
def PayloadBuilder.advance (pb : PayloadBuilder) (next : List Nat) :
    PayloadBuilder :=
  PayloadBuilder.mk pb.next next

/-- The closure returned by `PayloadBuilder::builder` (lib.rs), applied to
a strand and an optional previous entry; `none` is a panic inside the
timing code. -/
def PayloadBuilder.builder (hashFn : HashFn) (pb : PayloadBuilder) (now : Int)
    (strand : Strand) (prev : Option Twine) :
    Option (Except BuildError RandomnessPayload) :=
  match validate_signing_algorithm strand.keyAlg with
  | .error e => some (Except.error e)
  | .ok () =>
    match strand.subspec with
    | none => some (Except.error (BuildError.payloadConstruction
        "Subspec is required for validation"))
    | some subspec =>
      match validate_subspec subspec with
      | .error e => some (Except.error e)
      | .ok () =>
        if subspec_satisfies_1_0 subspec = false then
          some (Except.error (BuildError.badData (VerificationError.payload
            "Unable to build payload for future version")))
        else
          match strand.details with
          | none => some (Except.error (BuildError.badData (VerificationError.payload
              "Invalid strand details")))
          | some period =>
            match prev with
            | none =>
              (RandomnessPayload.new_start now (pb.pre hashFn strand.hasher) period).map
                (fun r => r.mapError BuildError.badData)
            | some prevTwine =>
              RandomnessPayload.new_next hashFn now pb.current
                (pb.pre hashFn strand.hasher) prevTwine.tixel period

/-
Concrete instances used by witnesses and counterexamples.
-/

/-- A concrete digest function mapping everything to the one-byte digest 7,
used to evaluate the embedding on closed inputs. -/
def hashFnW : HashFn := fun _ _ => [7]

/-- A concrete digest function mapping everything to the two-byte digest
[7, 7]. -/
def hashFnC : HashFn := fun _ _ => [7, 7]

/-- A concrete digest function mapping everything to the one-byte digest 1. -/
def hashFnBad : HashFn := fun _ _ => [1]

/-- A concrete predecessor entry with a one-byte content-hash digest and a
payload committing (under `hashFnW`) to the digest 7. -/
def prevW : Twine :=
  Twine.mk
    (Tixel.mk (Multihash.mk 22 [3])
      (some (RandomnessPayloadRaw.mk [0] (Multihash.mk 22 [7]) 0)) Code.sha3_256)
    (Strand.mk (Multihash.mk 22 [9]) (SignatureAlgorithm.sha256Rsa 2048)
      (some (Subspec.mk "twine-rng" 1 0 0)) (some 1000000000) Code.sha3_256)
    none

/-- A concrete successor entry of `prevW`, one period later, whose salt
masks the reveal 5. -/
def currentW : Twine :=
  Twine.mk
    (Tixel.mk (Multihash.mk 22 [8])
      (some (RandomnessPayloadRaw.mk [6] (Multihash.mk 22 [4]) 1000000000)) Code.sha3_256)
    (Strand.mk (Multihash.mk 22 [9]) (SignatureAlgorithm.sha256Rsa 2048)
      (some (Subspec.mk "twine-rng" 1 0 0)) (some 1000000000) Code.sha3_256)
    (some (Stitch.mk (Multihash.mk 22 [9]) (Multihash.mk 22 [3])))

/-- The payload of `prevW`. -/
def ppW : RandomnessPayload :=
  RandomnessPayload.mk (RandomnessPayloadRaw.mk [0] (Multihash.mk 22 [7]) 0) (by decide)

/-- A payload two periods after `prevW`, used to exercise the cadence
check. -/
def selfLateW : RandomnessPayload :=
  RandomnessPayload.mk (RandomnessPayloadRaw.mk [6] (Multihash.mk 22 [4]) 2000000000) (by decide)

/-- A concrete predecessor entry with a two-byte content-hash digest whose
payload commits (under `hashFnC`) to the digest [7, 7]. -/
def prevTwineC : Twine :=
  Twine.mk
    (Tixel.mk (Multihash.mk 22 [3, 3])
      (some (RandomnessPayloadRaw.mk [0, 0] (Multihash.mk 22 [7, 7]) 0)) Code.sha3_256)
    (Strand.mk (Multihash.mk 22 [9, 9]) (SignatureAlgorithm.sha256Rsa 2048)
      (some (Subspec.mk "twine-rng" 1 0 0)) (some 1000000000) Code.sha3_256)
    none

/-- A two-byte pre-commitment for the next entry after `prevTwineC`. -/
def preC : Multihash := Multihash.mk 22 [9, 9]

/-
Helper lemmas.
-/

/-- Masking twice with the same byte sequence is the identity on the bytes
of the shorter list. -/
theorem zipWith_xor_cancel (a b : List Nat) (h : a.length ≤ b.length) :
    List.zipWith (fun x y => x ^^^ y) (List.zipWith (fun x y => x ^^^ y) a b) b = a := by
  induction a generalizing b with
  | nil => simp
  | cons x xs ih =>
    cases b with
    | nil => simp at h
    | cons y ys =>
      simp only [List.zipWith_cons_cons, List.cons.injEq]
      refine ⟨Nat.xor_cancel_right y x, ih ys ?_⟩
      simpa using h

/-- `try_new` succeeds exactly when `verify` accepts the record. -/
theorem exOk_try_new (salt : List Nat) (pre : Multihash) (ts : Int) :
    exOk (RandomnessPayload.try_new salt pre ts) =
      exOk (RandomnessPayloadRaw.mk salt pre ts).verify := by
  unfold RandomnessPayload.try_new
  split <;> rename_i h <;> simp only [h, exOk]

/-- A payload returned by `try_new` carries exactly the record that was
passed in. -/
theorem try_new_ok_raw (salt : List Nat) (pre : Multihash) (ts : Int)
    (p : RandomnessPayload)
    (h : RandomnessPayload.try_new salt pre ts = Except.ok p) :
    p.raw = RandomnessPayloadRaw.mk salt pre ts := by
  unfold RandomnessPayload.try_new at h
  split at h
  · cases h; rfl
  · cases h

/-
C1: round-trip of the XOR masking.
-/

/-- Evaluation helper for the C1 counterexample: the value that
`local_random_value` recovers from the payload built by a successful
`new_next`. -/
def new_next_lrv (hashFn : HashFn) (now : Int) (rand : List Nat)
    (pre : Multihash) (prev : Twine) (period : Int) : Option (List Nat) :=
  match RandomnessPayload.new_next hashFn now rand pre prev.tixel period with
  | some (.ok p) => some (p.local_random_value prev)
  | _ => none

/-- C1 counterexample: with a three-byte reveal against a predecessor
whose content-hash digest has two bytes, `new_next` succeeds (the reveal
hashes to the predecessor payload pre, and the digest sizes of the new
pre and of the predecessor content hash agree), yet `local_random_value`
recovers only the first two bytes of the reveal, not the reveal. -/
theorem new_next_roundtrip_counterexample :
    new_next_lrv hashFnC 0 [5, 5, 5] preC prevTwineC 1000000000 = some [5, 5] ∧
      ([5, 5] : List Nat) ≠ [5, 5, 5] := by
  constructor
  · decide
  · decide

/-- C1 (amended): for every reveal whose length equals the digest size of
the predecessor content hash, a successful `new_next` round-trips through
`local_random_value`. -/
theorem new_next_local_random_value_roundtrip (hashFn : HashFn) (now : Int)
    (rand : List Nat) (pre : Multihash) (prev : Twine) (period : Int)
    (p : RandomnessPayload)
    (hok : RandomnessPayload.new_next hashFn now rand pre prev.tixel period =
      some (Except.ok p))
    (hlen : rand.length = prev.tixel.cid.digest.length) :
    RandomnessPayload.local_random_value p prev = rand := by
  unfold RandomnessPayload.new_next at hok
  split at hok
  · simp at hok
  · split at hok
    · simp at hok
    · split at hok
      · simp at hok
      · split at hok
        · simp at hok
        · simp only [Option.some.injEq] at hok
          rename_i ts hts
          cases hmap : RandomnessPayload.try_new
              (List.zipWith (fun a b => a ^^^ b) rand prev.tixel.cid.digest) pre ts with
          | error e =>
            rw [hmap] at hok
            simp [Except.mapError] at hok
          | ok q =>
            have hraw := try_new_ok_raw _ _ _ _ hmap
            rw [hmap] at hok
            simp only [Except.mapError, Except.ok.injEq] at hok
            subst hok
            unfold RandomnessPayload.local_random_value Twine.cid
            rw [hraw]
            exact zipWith_xor_cancel rand prev.tixel.cid.digest (le_of_eq hlen)

/-- The payload `new_next` builds from the two-byte reveal [5, 5] against
`prevTwineC`. -/
def pC1 : RandomnessPayload :=
  RandomnessPayload.mk
    (RandomnessPayloadRaw.mk [6, 6] (Multihash.mk 22 [9, 9]) 1000000000) (by decide)

/-- Witness for the amended C1 theorem at a concrete exact-length reveal. -/
theorem new_next_local_random_value_roundtrip_w :
    RandomnessPayload.local_random_value pC1 prevTwineC = [5, 5] :=
  new_next_local_random_value_roundtrip hashFnC 0 [5, 5] preC prevTwineC
    1000000000 pC1 (by decide) (by decide)

/-
C2: cadence exactness of validate_randomness.
-/

/-- C2: whenever the timestamp delta between a payload and the payload of
the previous entry differs from the period declared by the strand,
`validate_randomness` returns an error. -/
theorem validate_randomness_cadence_exact (hashFn : HashFn)
    (self : RandomnessPayload) (prev : Twine) (pp : RandomnessPayload)
    (period : Int)
    (hpp : prev.extract_payload = Except.ok pp)
    (hper : prev.strand.details = some period)
    (hne : self.raw.timestamp - pp.raw.timestamp ≠ period) :
    exOk (RandomnessPayload.validate_randomness hashFn self prev) = false := by
  simp only [RandomnessPayload.validate_randomness, hpp, hper]
  repeat' split
  all_goals simp_all [exOk]

/-- Witness for C2: a payload two periods after the predecessor is
rejected. -/
theorem validate_randomness_cadence_exact_w :
    exOk (RandomnessPayload.validate_randomness hashFnW selfLateW prevW) = false :=
  validate_randomness_cadence_exact hashFnW selfLateW prevW ppW 1000000000
    (by decide) rfl (by decide)

/-
C3: extract_randomness returns the content-hash digest of the current
entry.
-/

/-- C3: when `extract_randomness` succeeds, the value returned is the
content-hash digest of the current entry. -/
theorem extract_randomness_returns_cid_digest (hashFn : HashFn)
    (current prev : Twine) (v : List Nat)
    (h : extract_randomness hashFn current prev = Except.ok v) :
    v = current.cid.digest := by
  unfold extract_randomness at h
  repeat' split at h
  all_goals simp_all

/-- Witness for C3: a fully valid concrete pair yields the digest of the
current entry. -/
theorem extract_randomness_returns_cid_digest_w :
    extract_randomness hashFnW currentW prevW = Except.ok [8] ∧
      ([8] : List Nat) = currentW.cid.digest :=
  ⟨by decide, extract_randomness_returns_cid_digest hashFnW currentW prevW [8] (by decide)⟩

/-
C4: decode-time strictness of timestamps.
-/

/-- A raw payload whose timestamp carries half a millisecond (500000
nanoseconds) past the second boundary. -/
def rawSubMsC : RandomnessPayloadRaw :=
  RandomnessPayloadRaw.mk [0] (Multihash.mk 22 [5]) 500000

/-- C4 counterexample: a serialized timestamp with a non-zero sub-second
component below one millisecond is accepted by deserialization. -/
theorem deserialize_subsecond_counterexample :
    exOk (deserialize_payload rawSubMsC) = true ∧
      Int.emod rawSubMsC.timestamp 1000000000 ≠ 0 := by
  constructor
  · decide
  · decide

/-- C4 (amended): deserialization of a well-salted raw payload fails
exactly when the timestamp carries a non-zero whole-millisecond
sub-second component; sub-millisecond components alone are accepted. -/
theorem deserialize_rejects_exactly_nonzero_millis (r : RandomnessPayloadRaw)
    (hsalt : r.salt.length = r.pre.size) :
    exOk (deserialize_payload r) = true ↔
      timestamp_subsec_millis r.timestamp = 0 := by
  have h1 : deserialize_payload r =
      RandomnessPayload.try_new r.salt r.pre r.timestamp := rfl
  rw [h1, exOk_try_new]
  unfold RandomnessPayloadRaw.verify
  rw [if_neg (by simp [hsalt])]
  by_cases hm : timestamp_subsec_millis r.timestamp = 0
  · simp [hm, exOk]
  · simp [hm, exOk]

/-- Witness for the amended C4 theorem at the sub-millisecond input. -/
theorem deserialize_rejects_exactly_nonzero_millis_w :
    exOk (deserialize_payload rawSubMsC) = true ↔
      timestamp_subsec_millis rawSubMsC.timestamp = 0 :=
  deserialize_rejects_exactly_nonzero_millis rawSubMsC (by decide)

/-
C5: the salt-length invariant of the payload type.
-/

/-- C5: every value of the payload type satisfies the salt-length
invariant, and any candidate record violating it is rejected by
construction with an error. -/
theorem payload_salt_length_invariant :
    (∀ p : RandomnessPayload, p.raw.salt.length = p.raw.pre.size) ∧
      (∀ (salt : List Nat) (pre : Multihash) (ts : Int),
        salt.length ≠ pre.size →
        exOk (RandomnessPayload.try_new salt pre ts) = false) := by
  constructor
  · intro p
    have h := p.verified
    unfold RandomnessPayloadRaw.verify at h
    by_contra hne
    rw [if_pos hne] at h
    simp at h
  · intro salt pre ts hne
    rw [exOk_try_new]
    unfold RandomnessPayloadRaw.verify
    rw [if_pos (by simpa using hne)]
    rfl

/-- Witness for C5: a record whose salt is longer than the pre digest is
rejected. -/
theorem payload_salt_length_invariant_w :
    exOk (RandomnessPayload.try_new [0, 0] (Multihash.mk 22 [5]) 0) = false :=
  payload_salt_length_invariant.2 [0, 0] (Multihash.mk 22 [5]) 0 (by decide)

/-
C6: new_next rejects a reveal that does not match the previous
commitment.
-/

/-- C6: whenever the reveal hashed with the declared hash algorithm of the
previous entry differs from the pre commitment of the previous payload,
`new_next` fails with the precommitment construction error and produces
no payload. -/
theorem new_next_rejects_precommitment_mismatch (hashFn : HashFn) (now : Int)
    (rand : List Nat) (pre : Multihash) (prev : Tixel) (period : Int)
    (pp : RandomnessPayload)
    (hpp : prev.extract_payload = Except.ok pp)
    (hne : Code.digest hashFn prev.hasher rand ≠ pp.raw.pre) :
    RandomnessPayload.new_next hashFn now rand pre prev period =
      some (Except.error (BuildError.payloadConstruction
        "Precommitment does not match random bytes")) := by
  simp only [RandomnessPayload.new_next, hpp]
  rw [if_pos hne]

/-- Witness for C6: a digest function that cannot reproduce the previous
commitment makes `new_next` fail. -/
theorem new_next_rejects_precommitment_mismatch_w :
    RandomnessPayload.new_next hashFnBad 0 [5] (Multihash.mk 22 [9])
      prevW.tixel 1000000000 =
      some (Except.error (BuildError.payloadConstruction
        "Precommitment does not match random bytes")) :=
  new_next_rejects_precommitment_mismatch hashFnBad 0 [5] (Multihash.mk 22 [9])
    prevW.tixel 1000000000 ppW (by decide) (by decide)

/-
C7: the pulse-scheduling policy.
-/

/-- C7: when less than one period has elapsed since the previous pulse the
next pulse is exactly one period after it; otherwise the schedule
realigns to the absolute grid, the current time floored to the most
recent period boundary plus one period. -/
theorem next_pulse_timestamp_policy (now prev_time period : Int) :
    (now - prev_time < period →
      next_pulse_timestamp now prev_time period = some (prev_time + period)) ∧
      (¬ now - prev_time < period →
        next_pulse_timestamp now prev_time period = next_truncated_time now period) ∧
      (¬ now - prev_time < period → 0 < period → period < 2 ^ 63 →
        -(2 ^ 63) ≤ now → now < 2 ^ 63 →
        next_pulse_timestamp now prev_time period =
          some ((now - Int.emod now period) + period)) := by
  refine ⟨fun h => ?_, fun h => ?_, fun h h1 h2 h3 h4 => ?_⟩
  · unfold next_pulse_timestamp
    rw [if_pos h]
  · unfold next_pulse_timestamp
    rw [if_neg h]
  · have hd : duration_trunc now period = some (now - Int.emod now period) := by
      unfold duration_trunc
      rw [if_pos ⟨h1, h2, h3, h4⟩]
    unfold next_pulse_timestamp next_truncated_time
    rw [if_neg h, hd]

/-- Witness for C7: one concrete input per branch of the policy. -/
theorem next_pulse_timestamp_policy_w :
    next_pulse_timestamp 5 0 10 = some 10 ∧
      next_pulse_timestamp 20 0 10 = some 30 :=
  ⟨(next_pulse_timestamp_policy 5 0 10).1 (by decide),
    (next_pulse_timestamp_policy 20 0 10).2.2 (by decide) (by decide) (by decide)
      (by decide) (by decide)⟩

/-
C8: only the RSA signature algorithms are accepted.
-/

/-- C8: `validate_signing_algorithm` accepts exactly the SHA-256/384/512
RSA variants and rejects every other algorithm, Ed25519 included. -/
theorem validate_signing_algorithm_rsa_only :
    (∀ b, exOk (validate_signing_algorithm (SignatureAlgorithm.sha256Rsa b)) = true) ∧
      (∀ b, exOk (validate_signing_algorithm (SignatureAlgorithm.sha384Rsa b)) = true) ∧
      (∀ b, exOk (validate_signing_algorithm (SignatureAlgorithm.sha512Rsa b)) = true) ∧
      (∀ alg : SignatureAlgorithm,
        (∀ b, alg ≠ SignatureAlgorithm.sha256Rsa b ∧
          alg ≠ SignatureAlgorithm.sha384Rsa b ∧
          alg ≠ SignatureAlgorithm.sha512Rsa b) →
        exOk (validate_signing_algorithm alg) = false) := by
  refine ⟨fun b => rfl, fun b => rfl, fun b => rfl, fun alg h => ?_⟩
  cases alg with
  | sha256Rsa b => exact absurd rfl (h b).1
  | sha384Rsa b => exact absurd rfl (h b).2.1
  | sha512Rsa b => exact absurd rfl (h b).2.2
  | ecdsaP256 => rfl
  | ecdsaP384 => rfl
  | ed25519 => rfl

/-- Witness for C8: Ed25519 is rejected. -/
theorem validate_signing_algorithm_rsa_only_w :
    exOk (validate_signing_algorithm SignatureAlgorithm.ed25519) = false :=
  validate_signing_algorithm_rsa_only.2.2.2 SignatureAlgorithm.ed25519
    (fun _ => ⟨nofun, nofun, nofun⟩)

/-
C9: schema gating in the payload builder.
-/

/-- A subspec accepted by `validate_subspec` has the specification
namespace. -/
theorem validate_subspec_ok (s : Subspec)
    (h : validate_subspec s = Except.ok ()) :
    s.prefixStr = SPEC_PREFIX_STR := by
  by_contra hne
  rw [validate_subspec, if_pos hne] at h
  simp at h

/-- C9: the builder closure fails for any strand whose schema identifier
has the wrong namespace, fails with the forward-compatibility error when
the namespace is right but the version is not 1.0.x, and succeeds only
under the right namespace and a 1.0.x version. -/
theorem builder_schema_gating (hashFn : HashFn) (pb : PayloadBuilder)
    (now : Int) (strand : Strand) (prev : Option Twine) :
    (∀ s, strand.subspec = some s → s.prefixStr ≠ SPEC_PREFIX_STR →
      ∃ e, PayloadBuilder.builder hashFn pb now strand prev =
        some (Except.error e)) ∧
      (∀ s, validate_signing_algorithm strand.keyAlg = Except.ok () →
        strand.subspec = some s → s.prefixStr = SPEC_PREFIX_STR →
        subspec_satisfies_1_0 s = false →
        PayloadBuilder.builder hashFn pb now strand prev =
          some (Except.error (BuildError.badData (VerificationError.payload
            "Unable to build payload for future version")))) ∧
      (∀ p, PayloadBuilder.builder hashFn pb now strand prev =
          some (Except.ok p) →
        ∃ s, strand.subspec = some s ∧ s.prefixStr = SPEC_PREFIX_STR ∧
          subspec_satisfies_1_0 s = true) := by
  refine ⟨?_, ?_, ?_⟩
  · intro s hs hpre
    have hv : validate_subspec s =
        Except.error (BuildError.payloadConstruction
          ("Subspec prefix must be " ++ SPEC_PREFIX_STR)) := by
      unfold validate_subspec
      rw [if_pos hpre]
    cases halg : validate_signing_algorithm strand.keyAlg with
    | error e =>
      exact ⟨e, by simp only [PayloadBuilder.builder, halg]⟩
    | ok u =>
      cases u
      refine ⟨BuildError.payloadConstruction
        ("Subspec prefix must be " ++ SPEC_PREFIX_STR), ?_⟩
      simp only [PayloadBuilder.builder, halg, hs, hv]
  · intro s halg hs hpre hsat
    have hv : validate_subspec s = Except.ok () := by
      unfold validate_subspec
      rw [if_neg (by simp [hpre])]
    simp only [PayloadBuilder.builder, halg, hs, hv, hsat, if_pos]
  · intro p hp
    unfold PayloadBuilder.builder at hp
    repeat' split at hp
    all_goals simp_all
    all_goals exact validate_subspec_ok _ (by assumption)

/-- A strand declaring schema version 2.0.0 under the right namespace. -/
def strandV2 : Strand :=
  Strand.mk (Multihash.mk 22 [9]) (SignatureAlgorithm.sha256Rsa 2048)
    (some (Subspec.mk "twine-rng" 2 0 0)) (some 1000000000) Code.sha3_256

/-- Witness for C9: a 2.0.0 schema version fails with the
forward-compatibility error. -/
theorem builder_schema_gating_w :
    PayloadBuilder.builder hashFnW (PayloadBuilder.mk [0] [1]) 0 strandV2 none =
      some (Except.error (BuildError.badData (VerificationError.payload
        "Unable to build payload for future version"))) :=
  (builder_schema_gating hashFnW (PayloadBuilder.mk [0] [1]) 0 strandV2 none).2.1
    (Subspec.mk "twine-rng" 2 0 0) rfl rfl rfl (by decide)

/-
C10: partiality of next_truncated_time and its callers.
-/

/-- C10: `next_truncated_time` panics (is `none`) on a zero period and on
periods beyond the truncation limits, is total under the positivity and
range precondition, and `new_start` and `next_pulse_timestamp` panic
exactly when the `next_truncated_time` they call does. -/
theorem next_truncated_time_partiality (now prev_time period : Int)
    (pre : Multihash) :
    (next_truncated_time now 0 = none) ∧
      (2 ^ 63 ≤ period → next_truncated_time now period = none) ∧
      (0 < period → period < 2 ^ 63 → -(2 ^ 63) ≤ now → now < 2 ^ 63 →
        (next_truncated_time now period).isSome = true) ∧
      (RandomnessPayload.new_start now pre period = none ↔
        next_truncated_time now period = none) ∧
      (next_pulse_timestamp now prev_time period = none ↔
        (¬ now - prev_time < period ∧ next_truncated_time now period = none)) := by
  refine ⟨?_, fun h => ?_, fun h1 h2 h3 h4 => ?_, ?_, ?_⟩
  · simp [next_truncated_time, duration_trunc]
  · unfold next_truncated_time duration_trunc
    rw [if_neg (fun hc => absurd hc.2.1 (not_lt.2 h))]
  · unfold next_truncated_time duration_trunc
    rw [if_pos ⟨h1, h2, h3, h4⟩]
    rfl
  · cases hnt : next_truncated_time now period with
    | none => simp [RandomnessPayload.new_start, hnt]
    | some t => simp [RandomnessPayload.new_start, hnt]
  · unfold next_pulse_timestamp
    by_cases hlt : now - prev_time < period
    · simp [hlt]
    · simp [hlt]

/-- Witness for C10: the zero period panics and a positive one-minute
period does not. -/
theorem next_truncated_time_partiality_w :
    next_truncated_time 0 0 = none ∧
      (next_truncated_time 0 60).isSome = true :=
  ⟨(next_truncated_time_partiality 0 0 0 (Multihash.mk 22 [0])).1,
    (next_truncated_time_partiality 0 0 60 (Multihash.mk 22 [0])).2.2.1
      (by decide) (by decide) (by decide) (by decide)⟩

end TwineRng
